import Mathlib

/-!
Shallow embedding of the schema-validation and function-dispatch core of the
gemma-fncall-flow repository (`validation.py` and `function_calling.py`).

Modelling conventions:
  * Python runtime values are the inductive `Value`.  Python's `bool` is a
    subclass of `int`, so the numeric `isinstance` test accepts booleans and
    booleans compare as 0/1; the embedding reproduces this.  Floating-point
    values are not modelled (no claim exercises them); numeric schema bounds
    are `Int`.
  * Python `dict`s are association lists preserving insertion order, with
    unique keys maintained by the operations (`dictSet` replaces in place,
    `dictDelete` removes).
  * Exceptions become `Except PyErr`; `PyErr` distinguishes the exception
    classes the source raises (`ValidationError`, `ValueError`, `TypeError`,
    `RuntimeError`).  `TypeError` messages are abbreviated relative to
    CPython's exact wording; no claim inspects them.
  * `re.match` is modelled by a small regex language `Regex` with
    match-from-the-start semantics (`Regex.run` with a continuation); a schema
    pattern is carried as the pair of its source text (used in error
    messages) and its parsed regex.
-/

set_option autoImplicit false

namespace GemmaFncall

/-- A Python runtime value as far as the validation layer observes it. -/
inductive Value where
  | null
  | bool (b : Bool)
  | int (n : Int)
  | str (s : String)
  | list (elems : List Value)
  | dict (entries : List (String × Value))

/-- Lookup in an insertion-ordered dictionary (Python `d.get(k)` / `d[k]`). -/
def dictLookup {A : Type} : List (String × A) → String → Option A
  | [], _ => Option.none
  | (k, v) :: rest, key => if k = key then some v else dictLookup rest key

/-- Python `key in d`. -/
def containsKey {A : Type} (xs : List (String × A)) (key : String) : Bool :=
  (dictLookup xs key).isSome

/-- Python `d[key] = v`: replace in place when present, else append. -/
def dictSet {A : Type} (xs : List (String × A)) (key : String) (v : A) :
    List (String × A) :=
  if containsKey xs key then
    xs.map (fun p => if p.1 = key then (p.1, v) else p)
  else xs ++ [(key, v)]

/-- Python `del d[key]`. -/
def dictDelete {A : Type} (xs : List (String × A)) (key : String) :
    List (String × A) :=
  xs.filter (fun p => p.1 ≠ key)

theorem dictLookup_sizeOf {A : Type} [SizeOf A] :
    ∀ (xs : List (String × A)) (k : String) (v : A),
      dictLookup xs k = some v → sizeOf v < sizeOf xs := by
  intro xs k v h
  induction xs with
  | nil => simp [dictLookup] at h
  | cons p rest ih =>
    obtain ⟨pk, pv⟩ := p
    simp only [dictLookup] at h
    split at h
    · injection h with h
      subst h
      simp only [List.cons.sizeOf_spec, Prod.mk.sizeOf_spec]
      omega
    · have := ih h
      simp only [List.cons.sizeOf_spec, Prod.mk.sizeOf_spec]
      omega

/- Python `==` on the values above: `True == 1`, lists compare pointwise,
dicts compare as key-value sets. -/
mutual
def pyEq : Value → Value → Bool
  | .null, .null => true
  | .bool a, .bool b => a == b
  | .bool a, .int n => (if a then (1 : Int) else 0) == n
  | .int n, .bool a => n == (if a then (1 : Int) else 0)
  | .int a, .int b => a == b
  | .str a, .str b => a == b
  | .list a, .list b => pyEqList a b
  | .dict a, .dict b => pyEqEntries a b && (a.all fun p => containsKey b p.1) &&
      (b.all fun p => containsKey a p.1) && a.length == b.length
  | _, _ => false
termination_by a b => sizeOf a + sizeOf b
decreasing_by all_goals (simp_wf; omega)

def pyEqList : List Value → List Value → Bool
  | [], [] => true
  | x :: xs, y :: ys => pyEq x y && pyEqList xs ys
  | _, _ => false
termination_by a b => sizeOf a + sizeOf b
decreasing_by all_goals (simp_wf; omega)

def pyEqEntries : List (String × Value) → List (String × Value) → Bool
  | [], _ => true
  | (k, v) :: rest, b =>
    (match h : dictLookup b k with
     | Option.none => false
     | some w => pyEq v w) && pyEqEntries rest b
termination_by a b => sizeOf a + sizeOf b
decreasing_by
  all_goals simp_wf
  all_goals try omega
  all_goals (have hw := dictLookup_sizeOf b k w h; omega)
end

/-- Printed form of `type(value)` for the embedded values. -/
def pyType : Value → String
  | .null => "<class \x27NoneType\x27>"
  | .bool _ => "<class \x27bool\x27>"
  | .int _ => "<class \x27int\x27>"
  | .str _ => "<class \x27str\x27>"
  | .list _ => "<class \x27list\x27>"
  | .dict _ => "<class \x27dict\x27>"

mutual
/-- Python `repr(value)` for the embedded values (no escaping inside strings). -/
def pyRepr : Value → String
  | .null => "None"
  | .bool true => "True"
  | .bool false => "False"
  | .int n => toString n
  | .str s => "\x27" ++ s ++ "\x27"
  | .list xs => "[" ++ pyReprList xs ++ "]"
  | .dict xs => "\x7b" ++ pyReprEntries xs ++ "\x7d"

def pyReprList : List Value → String
  | [] => ""
  | [x] => pyRepr x
  | x :: y :: xs => pyRepr x ++ ", " ++ pyReprList (y :: xs)

def pyReprEntries : List (String × Value) → String
  | [] => ""
  | [(k, v)] => "\x27" ++ k ++ "\x27: " ++ pyRepr v
  | (k, v) :: p :: xs => "\x27" ++ k ++ "\x27: " ++ pyRepr v ++ ", " ++ pyReprEntries (p :: xs)
end

/-- Python `str(value)`: like `repr` except a top-level string prints bare. -/
def pyStr : Value → String
  | .str s => s
  | v => pyRepr v

/-- The exception classes raised by the source, each carrying `str(e)`. -/
inductive PyErr where
  | validationError (msg : String)
  | valueError (msg : String)
  | typeError (msg : String)
  | runtimeError (msg : String)
deriving DecidableEq

def Except.decEq {E A : Type} [DecidableEq E] [DecidableEq A] :
    (a b : Except E A) → Decidable (a = b)
  | .ok a, .ok b =>
    if h : a = b then .isTrue (by rw [h])
    else .isFalse (fun hc => h (by injection hc))
  | .ok _, .error _ => .isFalse (fun hc => Except.noConfusion hc)
  | .error _, .ok _ => .isFalse (fun hc => Except.noConfusion hc)
  | .error e, .error f =>
    if h : e = f then .isTrue (by rw [h])
    else .isFalse (fun hc => h (by injection hc))

instance {E A : Type} [DecidableEq E] [DecidableEq A] :
    DecidableEq (Except E A) :=
  Except.decEq

/-! Regular expressions, `re.match` semantics.  `re.match(p, s)` succeeds iff
the pattern matches a (possibly empty, possibly proper) prefix of `s` starting
at position 0.  The language below covers the constructs the repository's
patterns use: literal characters, character-class ranges, one-or-more over a
class, concatenation, and the end anchor `$` (a leading `^` is a no-op under
`re.match` and is dropped at translation time). -/

/-- Does character `c` fall in one of the ranges? -/
def clsTest (ranges : List (Char × Char)) (c : Char) : Bool :=
  ranges.any (fun r => r.1 ≤ c && c ≤ r.2)

inductive Regex where
  | eps
  | char (c : Char)
  | cls (ranges : List (Char × Char))
  | plusCls (ranges : List (Char × Char))
  | seq (a b : Regex)
  | eos
deriving DecidableEq

/-- Backtracking helper for one-or-more over a character class. -/
def plusRun (ranges : List (Char × Char)) : List Char → (List Char → Bool) → Bool
  | [], _ => false
  | a :: s, k => clsTest ranges a && (k s || plusRun ranges s k)

/-- Continuation-passing matcher: does `r` match a prefix of `s` whose
remainder satisfies `k`? -/
def Regex.run : Regex → List Char → (List Char → Bool) → Bool
  | .eps, s, k => k s
  | .char _, [], _ => false
  | .char c, a :: s, k => a == c && k s
  | .cls _, [], _ => false
  | .cls ranges, a :: s, k => clsTest ranges a && k s
  | .plusCls ranges, s, k => plusRun ranges s k
  | .seq r1 r2, s, k => r1.run s (fun t => r2.run t k)
  | .eos, s, k => s.isEmpty && k s

/-- Python `re.match(pattern, v)` viewed as a boolean. -/
def reMatch (r : Regex) (v : String) : Bool :=
  r.run v.data (fun _ => true)

/-- Declarative semantics: `Matches r s t` means `r` matches the prefix of
`s` that ends where suffix `t` begins. -/
inductive Regex.Matches : Regex → List Char → List Char → Prop where
  | eps (s : List Char) : Regex.Matches .eps s s
  | char (c : Char) (s : List Char) : Regex.Matches (.char c) (c :: s) s
  | cls (ranges : List (Char × Char)) (a : Char) (s : List Char) :
      clsTest ranges a = true → Regex.Matches (.cls ranges) (a :: s) s
  | plusOne (ranges : List (Char × Char)) (a : Char) (s : List Char) :
      clsTest ranges a = true → Regex.Matches (.plusCls ranges) (a :: s) s
  | plusMore (ranges : List (Char × Char)) (a : Char) (s t : List Char) :
      clsTest ranges a = true → Regex.Matches (.plusCls ranges) s t →
      Regex.Matches (.plusCls ranges) (a :: s) t
  | seq (r1 r2 : Regex) (s t u : List Char) :
      Regex.Matches r1 s t → Regex.Matches r2 t u →
      Regex.Matches (.seq r1 r2) s u
  | eosm : Regex.Matches .eos [] []

theorem plusRun_iff (ranges : List (Char × Char)) :
    ∀ (s : List Char) (k : List Char → Bool),
      plusRun ranges s k = true ↔
        ∃ t, Regex.Matches (.plusCls ranges) s t ∧ k t = true := by
  intro s
  induction s with
  | nil =>
    intro k
    simp only [plusRun, Bool.false_eq_true, false_iff]
    rintro ⟨t, hm, _⟩
    cases hm
  | cons a s ih =>
    intro k
    simp only [plusRun, Bool.and_eq_true, Bool.or_eq_true]
    constructor
    · rintro ⟨hc, hk | hrest⟩
      · exact ⟨s, .plusOne ranges a s hc, hk⟩
      · obtain ⟨t, hm, hkt⟩ := (ih k).mp hrest
        exact ⟨t, .plusMore ranges a s t hc hm, hkt⟩
    · rintro ⟨t, hm, hkt⟩
      cases hm with
      | plusOne _ _ _ hc => exact ⟨hc, Or.inl hkt⟩
      | plusMore _ _ _ _ hc hm2 => exact ⟨hc, Or.inr ((ih k).mpr ⟨t, hm2, hkt⟩)⟩

theorem run_iff (r : Regex) :
    ∀ (s : List Char) (k : List Char → Bool),
      r.run s k = true ↔ ∃ t, Regex.Matches r s t ∧ k t = true := by
  induction r with
  | eps =>
    intro s k
    simp only [Regex.run]
    constructor
    · intro hk
      exact ⟨s, .eps s, hk⟩
    · rintro ⟨t, hm, hkt⟩
      cases hm
      exact hkt
  | char c =>
    intro s k
    cases s with
    | nil =>
      simp only [Regex.run, Bool.false_eq_true, false_iff]
      rintro ⟨t, hm, _⟩
      cases hm
    | cons a s =>
      simp only [Regex.run, Bool.and_eq_true, beq_iff_eq]
      constructor
      · rintro ⟨rfl, hk⟩
        exact ⟨s, .char a s, hk⟩
      · rintro ⟨t, hm, hkt⟩
        cases hm
        exact ⟨rfl, hkt⟩
  | cls ranges =>
    intro s k
    cases s with
    | nil =>
      simp only [Regex.run, Bool.false_eq_true, false_iff]
      rintro ⟨t, hm, _⟩
      cases hm
    | cons a s =>
      simp only [Regex.run, Bool.and_eq_true]
      constructor
      · rintro ⟨hc, hk⟩
        exact ⟨s, .cls ranges a s hc, hk⟩
      · rintro ⟨t, hm, hkt⟩
        cases hm with
        | cls _ _ _ hc => exact ⟨hc, hkt⟩
  | plusCls ranges =>
    intro s k
    exact plusRun_iff ranges s k
  | seq r1 r2 ih1 ih2 =>
    intro s k
    simp only [Regex.run]
    rw [ih1]
    constructor
    · rintro ⟨t, hm1, hrun2⟩
      obtain ⟨u, hm2, hku⟩ := (ih2 t k).mp hrun2
      exact ⟨u, .seq r1 r2 s t u hm1 hm2, hku⟩
    · rintro ⟨u, hm, hku⟩
      cases hm with
      | seq _ _ _ t _ hm1 hm2 => exact ⟨t, hm1, (ih2 t k).mpr ⟨u, hm2, hku⟩⟩
  | eos =>
    intro s k
    cases s with
    | nil =>
      simp only [Regex.run, List.isEmpty_nil, Bool.true_and]
      constructor
      · intro hk
        exact ⟨[], .eosm, hk⟩
      · rintro ⟨t, hm, hkt⟩
        cases hm
        exact hkt
    | cons a s =>
      simp only [Regex.run, List.isEmpty_cons, Bool.false_and, Bool.false_eq_true, false_iff]
      rintro ⟨t, hm, _⟩
      cases hm

/-- Theorem: `re.match` succeeds iff the regex matches starting at the beginning of
the value, leaving an arbitrary (possibly nonempty) suffix. -/
theorem reMatch_iff (r : Regex) (v : String) :
    reMatch r v = true ↔ ∃ t, Regex.Matches r v.data t := by
  rw [reMatch, run_iff]
  constructor
  · rintro ⟨t, hm, _⟩
    exact ⟨t, hm⟩
  · rintro ⟨t, hm⟩
    exact ⟨t, hm, rfl⟩

/-! ParameterType and schemas (`validation.py`). -/

/-- The closed enumeration of parameter kinds. -/
inductive ParameterType where
  | string
  | number
  | boolean
  | array
  | object
  | enum
deriving DecidableEq

/-- The `ParameterType(type)` enum constructor: `ValueError` on an
unrecognised kind string. -/
def ParameterType.ofString : String → Except PyErr ParameterType
  | "string" => .ok .string
  | "number" => .ok .number
  | "boolean" => .ok .boolean
  | "array" => .ok .array
  | "object" => .ok .object
  | "enum" => .ok .enum
  | s => .error (.valueError ("\x27" ++ s ++ "\x27 is not a valid ParameterType"))

/-- A raw parameter-schema definition: the plain keyword dictionary passed to
`ParameterSchema(**d)`.  `type?`/`description?` are optional because their
presence is only checked later; a schema pattern carries both its source text
and its parsed regex; `items`/`properties` stay raw and are materialised
lazily at validation time, exactly as in the source. -/
inductive RawParam where
  | mk (type? : Option String) (description? : Option String)
       (required : Bool) (minimum : Option Int) (maximum : Option Int)
       (pattern : Option (String × Regex)) (enumValues : Option (List Value))
       (items : Option RawParam) (properties : Option (List (String × RawParam)))

def RawParam.type? : RawParam → Option String
  | .mk t _ _ _ _ _ _ _ _ => t

def RawParam.description? : RawParam → Option String
  | .mk _ d _ _ _ _ _ _ _ => d

def RawParam.required : RawParam → Bool
  | .mk _ _ r _ _ _ _ _ _ => r

def RawParam.minimum : RawParam → Option Int
  | .mk _ _ _ mn _ _ _ _ _ => mn

def RawParam.maximum : RawParam → Option Int
  | .mk _ _ _ _ mx _ _ _ _ => mx

def RawParam.pattern : RawParam → Option (String × Regex)
  | .mk _ _ _ _ _ p _ _ _ => p

def RawParam.enumValues : RawParam → Option (List Value)
  | .mk _ _ _ _ _ _ e _ _ => e

def RawParam.items : RawParam → Option RawParam
  | .mk _ _ _ _ _ _ _ i _ => i

def RawParam.properties : RawParam → Option (List (String × RawParam))
  | .mk _ _ _ _ _ _ _ _ ps => ps

/-- A raw definition with every optional field absent and `required = false`
(the keyword defaults of `ParameterSchema.__init__`). -/
def RawParam.base (type description : String) : RawParam :=
  .mk (some type) (some description) false Option.none Option.none
    Option.none Option.none Option.none Option.none

/-- A constructed `ParameterSchema` object. -/
structure ParameterSchema where
  type : ParameterType
  description : String
  required : Bool
  minimum : Option Int
  maximum : Option Int
  pattern : Option (String × Regex)
  enumValues : Option (List Value)
  items : Option RawParam
  properties : Option (List (String × RawParam))

/-- Constructor `ParameterSchema(**raw)`: `TypeError` when `type`/`description` are
absent (missing required positional argument), `ValueError` from
`ParameterType(type)` on a bad kind string. -/
def ParameterSchema.ofRaw (raw : RawParam) : Except PyErr ParameterSchema :=
  match raw.type? with
  | Option.none =>
    .error (.typeError "missing 1 required positional argument: \x27type\x27")
  | some t =>
    match raw.description? with
    | Option.none =>
      .error (.typeError "missing 1 required positional argument: \x27description\x27")
    | some d =>
      match ParameterType.ofString t with
      | .error e => .error e
      | .ok pt =>
        .ok { type := pt, description := d, required := raw.required,
              minimum := raw.minimum, maximum := raw.maximum,
              pattern := raw.pattern, enumValues := raw.enumValues,
              items := raw.items, properties := raw.properties }

/-- The numeric value of a Python `int`-or-`bool` (a `bool` is the `int`
0 or 1); only applied after the `isinstance(value, (int, float))` test. -/
def Value.toNum : Value → Int
  | .int n => n
  | .bool b => if b then 1 else 0
  | _ => 0

mutual
/-- Method `ParameterSchema.validate(value)` from `validation.py`. -/
def ParameterSchema.validate (s : ParameterSchema) (v : Value) :
    Except PyErr Unit :=
  match v with
  | .null =>
    if s.required then .error (.validationError "Required parameter is missing")
    else .ok ()
  | v =>
    match s.type with
    | .string =>
      match v with
      | .str sv =>
        match s.pattern with
        | some (ptext, r) =>
          if ptext ≠ "" && !reMatch r sv then
            .error (.validationError ("String does not match pattern: " ++ ptext))
          else .ok ()
        | Option.none => .ok ()
      | _ => .error (.validationError ("Expected string, got " ++ pyType v))
    | .number =>
      match v with
      | .int _ | .bool _ =>
        match s.minimum with
        | some mn =>
          if v.toNum < mn then
            .error (.validationError
              ("Value " ++ pyStr v ++ " is less than minimum " ++ toString mn))
          else
            match s.maximum with
            | some mx =>
              if mx < v.toNum then
                .error (.validationError
                  ("Value " ++ pyStr v ++ " is greater than maximum " ++ toString mx))
              else .ok ()
            | Option.none => .ok ()
        | Option.none =>
          match s.maximum with
          | some mx =>
            if mx < v.toNum then
              .error (.validationError
                ("Value " ++ pyStr v ++ " is greater than maximum " ++ toString mx))
            else .ok ()
          | Option.none => .ok ()
      | _ => .error (.validationError ("Expected number, got " ++ pyType v))
    | .boolean =>
      match v with
      | .bool _ => .ok ()
      | _ => .error (.validationError ("Expected boolean, got " ++ pyType v))
    | .array =>
      match v with
      | .list xs =>
        match s.items with
        | some itemsRaw =>
          match ParameterSchema.ofRaw itemsRaw with
          | .error e => .error e
          | .ok iv => validateList iv xs
        | Option.none => .ok ()
      | _ => .error (.validationError ("Expected array, got " ++ pyType v))
    | .object =>
      match v with
      | .dict entries =>
        match s.properties with
        | some props => validateProps props entries
        | Option.none => .ok ()
      | _ => .error (.validationError ("Expected object, got " ++ pyType v))
    | .enum =>
      match s.enumValues with
      | Option.none =>
        .error (.validationError "Enum values not specified in schema")
      | some evs =>
        if evs.any (fun e => pyEq v e) then .ok ()
        else
          .error (.validationError
            ("Value " ++ pyStr v ++ " not in enum values: [" ++ pyReprList evs ++ "]"))
termination_by (sizeOf v, 0)
decreasing_by all_goals (simp_wf; omega)

/-- The `for item in value: item_validator.validate(item)` loop: every
element against the one lazily built item validator, first error propagated
unchanged. -/
def validateList (iv : ParameterSchema) (l : List Value) : Except PyErr Unit :=
  match l with
  | [] => .ok ()
  | x :: xs =>
    match iv.validate x with
    | .error e => .error e
    | .ok _ => validateList iv xs
termination_by (sizeOf l, 0)
decreasing_by all_goals (simp_wf; omega)

/-- The `for prop_name, prop_schema in self.properties.items()` loop: each
listed property that is present in the value is validated against its lazily
built validator; first error propagated unchanged. -/
def validateProps (props : List (String × RawParam))
    (entries : List (String × Value)) : Except PyErr Unit :=
  match props with
  | [] => .ok ()
  | (propName, propRaw) :: rest =>
    match h : dictLookup entries propName with
    | Option.none => validateProps rest entries
    | some w =>
      match ParameterSchema.ofRaw propRaw with
      | .error e => .error e
      | .ok pv =>
        match pv.validate w with
        | .error e => .error e
        | .ok _ => validateProps rest entries
termination_by (sizeOf entries, sizeOf props)
decreasing_by
  all_goals simp_wf
  all_goals first
    | exact Prod.Lex.right _ (by omega)
    | (have hw := dictLookup_sizeOf entries propName w h
       exact Prod.Lex.left _ _ (by omega))
end

/-! FunctionSchema (`validation.py`). -/

/-- A constructed `FunctionSchema` object: parameter schemas built eagerly,
`required` defaulted to the empty list by `required or []`. -/
structure FunctionSchema where
  name : String
  description : String
  parameters : List (String × ParameterSchema)
  required : List String

/-- The dict comprehension in `FunctionSchema.__init__`: build each
parameter's `ParameterSchema` in insertion order, first failure propagating. -/
def buildParams : List (String × RawParam) →
    Except PyErr (List (String × ParameterSchema))
  | [] => .ok []
  | (n, raw) :: rest =>
    match ParameterSchema.ofRaw raw with
    | .error e => .error e
    | .ok ps =>
      match buildParams rest with
      | .error e => .error e
      | .ok built => .ok ((n, ps) :: built)

/-- Constructor `FunctionSchema(name, description, parameters, required)`. -/
def FunctionSchema.make (name description : String)
    (parameters : List (String × RawParam)) (required : Option (List String)) :
    Except PyErr FunctionSchema :=
  match buildParams parameters with
  | .error e => .error e
  | .ok ps =>
    .ok { name := name, description := description, parameters := ps,
          required := required.getD [] }

/-- First pass of `validate_parameters`: every name in `required` must be a
key of the argument map, in required-list order. -/
def checkRequired (required : List String) (params : List (String × Value)) :
    Except PyErr Unit :=
  match required with
  | [] => .ok ()
  | r :: rest =>
    if containsKey params r then checkRequired rest params
    else
      .error (.validationError ("Required parameter \x27" ++ r ++ "\x27 is missing"))

/-- Second pass of `validate_parameters`: one sweep over the argument map in
insertion order; each key is checked against the parameters mapping and its
value validated immediately, a `ValidationError` being rewrapped with the
parameter name. -/
def checkProvided (schemas : List (String × ParameterSchema)) :
    List (String × Value) → Except PyErr Unit
  | [] => .ok ()
  | (pname, pvalue) :: rest =>
    match dictLookup schemas pname with
    | Option.none => .error (.validationError ("Unknown parameter: " ++ pname))
    | some ps =>
      match ps.validate pvalue with
      | .ok _ => checkProvided schemas rest
      | .error (.validationError m) =>
        .error (.validationError
          ("Invalid value for parameter \x27" ++ pname ++ "\x27: " ++ m))
      | .error e => .error e

/-- Method `FunctionSchema.validate_parameters(params)`. -/
def FunctionSchema.validateParameters (fs : FunctionSchema)
    (params : List (String × Value)) : Except PyErr Unit :=
  match checkRequired fs.required params with
  | .error e => .error e
  | .ok _ => checkProvided fs.parameters params

/-! FunctionValidator (`validation.py`). -/

/-- A raw function definition: the plain dictionary handed to `register`. -/
structure RawFunctionDef where
  name? : Option String
  description? : Option String
  parameters? : Option (List (String × RawParam))
  required? : Option (List String)

/-- Per-parameter checks of `validate_function_definition`: `type` present,
`description` present, `type` a recognised kind string. -/
def checkParamDefs : List (String × RawParam) → Except PyErr Unit
  | [] => .ok ()
  | (pname, praw) :: rest =>
    match praw.type? with
    | Option.none =>
      .error (.validationError ("Parameter \x27" ++ pname ++ "\x27 missing type"))
    | some t =>
      match praw.description? with
      | Option.none =>
        .error (.validationError
          ("Parameter \x27" ++ pname ++ "\x27 missing description"))
      | some _ =>
        match ParameterType.ofString t with
        | .error _ =>
          .error (.validationError
            ("Invalid parameter type for \x27" ++ pname ++ "\x27: " ++ t))
        | .ok _ => checkParamDefs rest

/-- Method `FunctionValidator.validate_function_definition(schema)`.  (The
`isinstance(schema["parameters"], dict)` check is unrepresentable here
because `parameters?` is typed as a mapping.) -/
def validateFunctionDefinition (schema : RawFunctionDef) : Except PyErr Unit :=
  if schema.name?.isNone then
    .error (.validationError "Missing required field in function definition: name")
  else if schema.description?.isNone then
    .error (.validationError
      "Missing required field in function definition: description")
  else
    match schema.parameters? with
    | Option.none =>
      .error (.validationError
        "Missing required field in function definition: parameters")
    | some ps => checkParamDefs ps

/-! FunctionRegistry and GemmaFunctionCaller (`function_calling.py`). -/

/-- A registered callable.  A Python callable may keep mutable state across
attempts, so it is modelled as a function of the keyword arguments and the
zero-based attempt index, returning a result or the `str()` of the exception
it raises. -/
def Callable : Type := List (String × Value) → Nat → Except String Value

/-- The two insertion-ordered maps `_functions` and `_schemas`. -/
structure FunctionRegistry where
  functions : List (String × Callable)
  schemas : List (String × FunctionSchema)

/-- Constructor `FunctionRegistry.__init__`. -/
def FunctionRegistry.empty : FunctionRegistry :=
  { functions := [], schemas := [] }

/-- Method `FunctionRegistry.register`: duplicate-name check, definition validation,
then the schema and the callable installed together.  The result pairs the
outcome with the post-state.  The fallback branch is unreachable because
`validateFunctionDefinition` has already checked the three fields. -/
def FunctionRegistry.register (reg : FunctionRegistry) (name : String)
    (func : Callable) (schema : RawFunctionDef) :
    Except PyErr Unit × FunctionRegistry :=
  if containsKey reg.functions name then
    (.error (.validationError
      ("Function \x27" ++ name ++ "\x27 is already registered")), reg)
  else
    match validateFunctionDefinition schema with
    | .error e => (.error e, reg)
    | .ok _ =>
      match schema.name?, schema.description?, schema.parameters? with
      | some n, some d, some ps =>
        match FunctionSchema.make n d ps (some (schema.required?.getD [])) with
        | .error e => (.error e, reg)
        | .ok fschema =>
          (.ok (), { functions := dictSet reg.functions name func,
                     schemas := dictSet reg.schemas name fschema })
      | _, _, _ =>
        (.error (.validationError
          "Missing required field in function definition: name"), reg)

/-- Method `FunctionRegistry.unregister`: `ValueError` when absent, otherwise both
entries removed together. -/
def FunctionRegistry.unregister (reg : FunctionRegistry) (name : String) :
    Except PyErr Unit × FunctionRegistry :=
  if containsKey reg.functions name then
    (.ok (), { functions := dictDelete reg.functions name,
               schemas := dictDelete reg.schemas name })
  else
    (.error (.valueError ("Function " ++ name ++ " not found in registry")), reg)

/-- Method `FunctionRegistry.update_function`: `ValueError` when absent, otherwise
validate the new definition and replace both entries in place. -/
def FunctionRegistry.updateFunction (reg : FunctionRegistry) (name : String)
    (newFunc : Callable) (newSchema : RawFunctionDef) :
    Except PyErr Unit × FunctionRegistry :=
  if containsKey reg.functions name then
    match validateFunctionDefinition newSchema with
    | .error e => (.error e, reg)
    | .ok _ =>
      match newSchema.name?, newSchema.description?, newSchema.parameters? with
      | some n, some d, some ps =>
        match FunctionSchema.make n d ps (some (newSchema.required?.getD [])) with
        | .error e => (.error e, reg)
        | .ok fschema =>
          (.ok (), { functions := dictSet reg.functions name newFunc,
                     schemas := dictSet reg.schemas name fschema })
      | _, _, _ =>
        (.error (.validationError
          "Missing required field in function definition: name"), reg)
  else
    (.error (.valueError ("Function " ++ name ++ " not found in registry")), reg)

/-- Method `FunctionRegistry.get_function`: a total lookup. -/
def FunctionRegistry.getFunction (reg : FunctionRegistry) (name : String) :
    Option Callable :=
  dictLookup reg.functions name

/-- Method `FunctionRegistry.get_schema`: a total lookup. -/
def FunctionRegistry.getSchema (reg : FunctionRegistry) (name : String) :
    Option FunctionSchema :=
  dictLookup reg.schemas name

/-- Method `FunctionRegistry.list_functions`: `(name, description)` pairs in the
iteration order of the schema map. -/
def FunctionRegistry.listFunctions (reg : FunctionRegistry) :
    List (String × String) :=
  reg.schemas.map (fun p => (p.1, p.2.description))

/-- Method `GemmaFunctionCaller._build_system_prompt`. -/
def buildSystemPrompt (reg : FunctionRegistry) : String :=
  let functions := reg.listFunctions
  if functions.isEmpty then "No functions are currently available."
  else
    "Available functions:\n\n" ++
      String.join (functions.map (fun f => "- " ++ f.1 ++ ": " ++ f.2 ++ "\n"))

/-- The dispatcher: a registry reference plus the cached capability
listing. -/
structure GemmaFunctionCaller where
  registry : FunctionRegistry
  systemPrompt : String

/-- Constructor `GemmaFunctionCaller.__init__`. -/
def GemmaFunctionCaller.make (reg : FunctionRegistry) : GemmaFunctionCaller :=
  { registry := reg, systemPrompt := buildSystemPrompt reg }

/-- Method `GemmaFunctionCaller.get_system_prompt`. -/
def GemmaFunctionCaller.getSystemPrompt (c : GemmaFunctionCaller) : String :=
  c.systemPrompt

/-- Python `str(last_error)`: `"None"` when no attempt has failed yet. -/
def strOfLast : Option String → String
  | Option.none => "None"
  | some e => e

/-- The `while retries < max_retries` loop of `call_function`, recursing on
the remaining attempt budget.  `retries` is the number of attempts already
failed; the second component of the result counts invocations of the
callable. -/
def runWithRetry (func : Nat → Except String Value) (retries : Nat) :
    Nat → Option String → Except PyErr Value × Nat
  | 0, lastError =>
    (.error (.runtimeError ("Function execution failed: " ++ strOfLast lastError)),
     retries)
  | remaining + 1, lastError =>
    match func retries with
    | .ok v => (.ok v, retries + 1)
    | .error e => runWithRetry func (retries + 1) remaining (some e)

/-- Method `GemmaFunctionCaller.call_function(name, parameters, max_retries)`.  The
second component counts invocations of the registered callable. -/
def GemmaFunctionCaller.callFunction (c : GemmaFunctionCaller) (name : String)
    (parameters : List (String × Value)) (maxRetries : Nat) :
    Except PyErr Value × Nat :=
  match c.registry.getFunction name with
  | Option.none => (.error (.valueError ("Function " ++ name ++ " not found")), 0)
  | some func =>
    match c.registry.getSchema name with
    | Option.none =>
      (.error (.valueError ("Schema for function " ++ name ++ " not found")), 0)
    | some schema =>
      match schema.validateParameters parameters with
      | .error e => (.error e, 0)
      | .ok _ => runWithRetry (func parameters) 0 maxRetries Option.none

/-- Method `GemmaFunctionCaller.register_function`: registry call, then the prompt
rebuilt only when the registry call returns (an exception skips the
rebuild). -/
def GemmaFunctionCaller.registerFunction (c : GemmaFunctionCaller)
    (name : String) (func : Callable) (schema : RawFunctionDef) :
    Except PyErr Unit × GemmaFunctionCaller :=
  match c.registry.register name func schema with
  | (.ok _, reg) => (.ok (), { registry := reg, systemPrompt := buildSystemPrompt reg })
  | (.error e, reg) => (.error e, { registry := reg, systemPrompt := c.systemPrompt })

/-- Method `GemmaFunctionCaller.unregister_function`. -/
def GemmaFunctionCaller.unregisterFunction (c : GemmaFunctionCaller)
    (name : String) : Except PyErr Unit × GemmaFunctionCaller :=
  match c.registry.unregister name with
  | (.ok _, reg) => (.ok (), { registry := reg, systemPrompt := buildSystemPrompt reg })
  | (.error e, reg) => (.error e, { registry := reg, systemPrompt := c.systemPrompt })

/-- Method `GemmaFunctionCaller.update_function`. -/
def GemmaFunctionCaller.updateFunction (c : GemmaFunctionCaller)
    (name : String) (newFunc : Callable) (newSchema : RawFunctionDef) :
    Except PyErr Unit × GemmaFunctionCaller :=
  match c.registry.updateFunction name newFunc newSchema with
  | (.ok _, reg) => (.ok (), { registry := reg, systemPrompt := buildSystemPrompt reg })
  | (.error e, reg) => (.error e, { registry := reg, systemPrompt := c.systemPrompt })

/-! Concrete schemas used by the examples in the spec, and generic schema
builders used to state properties uniformly over the irrelevant fields. -/

/-- A Number-kind schema with arbitrary bounds. -/
def numberSchema (descr : String) (req : Bool) (mn mx : Option Int) :
    ParameterSchema :=
  { type := .number, description := descr, required := req, minimum := mn,
    maximum := mx, pattern := Option.none, enumValues := Option.none,
    items := Option.none, properties := Option.none }

/-- The spec's example schema `{kind: Number, minimum: 0}`. -/
def numberMin0 : ParameterSchema :=
  numberSchema "A number parameter" false (some 0) Option.none

/-- A String-kind schema with a pattern. -/
def stringPatternSchema (descr : String) (req : Bool) (ptext : String)
    (r : Regex) : ParameterSchema :=
  { type := .string, description := descr, required := req,
    minimum := Option.none, maximum := Option.none, pattern := some (ptext, r),
    enumValues := Option.none, items := Option.none, properties := Option.none }

/-- The pattern `"^[A-Za-z]+$"`: under `re.match` the leading `^` is a no-op
and the `$` is the end anchor. -/
def patAlphaFull : Regex :=
  .seq (.plusCls [('A', 'Z'), ('a', 'z')]) .eos

/-- The unanchored pattern `"abc"`. -/
def patAbc : Regex :=
  .seq (.char 'a') (.seq (.char 'b') (.char 'c'))

/-! C1.  The spec claims Number-kind validation rejects booleans.  In the
source, `isinstance(value, (int, float))` is satisfied by a `bool` (a
subclass of `int`) and no special case exists, so `validate(True)` against
`{kind: Number, minimum: 0}` SUCCEEDS: `True` compares as the integer 1. -/

/-- C1 counterexample: validating `True` against `{kind: Number, minimum: 0}`
succeeds, where the claim says it fails. -/
theorem number_schema_accepts_bool_true :
    numberMin0.validate (.bool true) = .ok () := by
  simp [ParameterSchema.validate, numberMin0, numberSchema, Value.toNum]

/-- C1 (amended): for the Number kind, validation fails on values that are
not integers or booleans, but booleans are accepted — `bool` is a subclass of
`int` in the source type system and is not special-cased — and a boolean
validates exactly like its 0/1 integer against the bounds; in particular
`True` against `{kind: Number, minimum: 0}` succeeds. -/
theorem number_validation_accepts_bool_as_int (descr : String) (req : Bool)
    (mn mx : Option Int) (b : Bool) (sv : String) (xs : List Value)
    (es : List (String × Value)) :
    ((numberSchema descr req mn mx).validate (.bool b) = .ok () ↔
      (numberSchema descr req mn mx).validate (.int (if b then 1 else 0)) = .ok ())
    ∧ (numberSchema descr req mn mx).validate (.str sv) =
        .error (.validationError ("Expected number, got <class \x27str\x27>"))
    ∧ (numberSchema descr req mn mx).validate (.list xs) =
        .error (.validationError ("Expected number, got <class \x27list\x27>"))
    ∧ (numberSchema descr req mn mx).validate (.dict es) =
        .error (.validationError ("Expected number, got <class \x27dict\x27>"))
    ∧ numberMin0.validate (.bool true) = .ok () := by
  refine ⟨?_, ?_, ?_, ?_, number_schema_accepts_bool_true⟩
  · cases mn with
    | none =>
      cases mx with
      | none => simp [ParameterSchema.validate, numberSchema, Value.toNum]
      | some m => simp [ParameterSchema.validate, numberSchema, Value.toNum]
    | some m =>
      cases mx with
      | none => simp [ParameterSchema.validate, numberSchema, Value.toNum]
      | some m2 =>
        simp only [ParameterSchema.validate, numberSchema, Value.toNum]
        by_cases h1 : (if b = true then (1 : Int) else 0) < m
        · simp [h1]
        · by_cases h2 : m2 < (if b = true then (1 : Int) else 0)
          · simp [h1, h2]
          · simp [h1, h2]
  · simp [ParameterSchema.validate, numberSchema, pyType]
  · simp [ParameterSchema.validate, numberSchema, pyType]
  · simp [ParameterSchema.validate, numberSchema, pyType]

/-! C2.  String-pattern validation uses `re.match`: the regular expression
must match starting at position 0 of the value (a proper prefix is enough).
The claim's second example is wrong on the code: the unanchored pattern
`"abc"` against `"xabcx"` FAILS, because `re.match` is not a substring
search; `"abc"` against `"abcxx"` succeeds. -/

/-- C2 counterexample: pattern `"abc"` against `"xabcx"` fails, where the
claim says it succeeds. -/
theorem string_pattern_xabcx_fails :
    (stringPatternSchema "A string parameter" false "abc" patAbc).validate
        (.str "xabcx") =
      .error (.validationError "String does not match pattern: abc") := by
  simp [ParameterSchema.validate, stringPatternSchema, patAbc, reMatch, Regex.run]

/-- C2 (amended): with a nonempty pattern, String-kind validation succeeds
exactly when the regex matches starting at the beginning of the value,
leaving an arbitrary suffix (partial-match-from-start, not full anchoring and
not substring search): `"^[A-Za-z]+$"` against `"Hello123"` fails, `"abc"`
against `"xabcx"` fails, and `"abc"` against `"abcxx"` succeeds. -/
theorem string_pattern_match_from_start (descr : String) (req : Bool)
    (ptext : String) (r : Regex) (v : String) (hp : ptext ≠ "") :
    ((stringPatternSchema descr req ptext r).validate (.str v) = .ok () ↔
      ∃ t, Regex.Matches r v.data t)
    ∧ (stringPatternSchema "A string parameter" false "^[A-Za-z]+$"
        patAlphaFull).validate (.str "Hello123") =
        .error (.validationError "String does not match pattern: ^[A-Za-z]+$")
    ∧ (stringPatternSchema "A string parameter" false "abc" patAbc).validate
        (.str "xabcx") =
        .error (.validationError "String does not match pattern: abc")
    ∧ (stringPatternSchema "A string parameter" false "abc" patAbc).validate
        (.str "abcxx") = .ok () := by
  refine ⟨?_, ?_, string_pattern_xabcx_fails, ?_⟩
  · rw [← reMatch_iff]
    simp [ParameterSchema.validate, stringPatternSchema, hp]
  · simp [ParameterSchema.validate, stringPatternSchema, patAlphaFull, reMatch,
      Regex.run, plusRun, clsTest]
  · simp [ParameterSchema.validate, stringPatternSchema, patAbc, reMatch,
      Regex.run]

/-- C2 witness: the amended theorem applied to the pattern `"abc"` and the
value `"abcxx"`, whose match leaves the proper suffix `"xx"`. -/
theorem string_pattern_match_from_start_witness :
    (stringPatternSchema "A string parameter" false "abc" patAbc).validate
        (.str "abcxx") = .ok () ∧
      ∃ t, Regex.Matches patAbc ("abcxx".data) t := by
  have h := string_pattern_match_from_start "A string parameter" false "abc"
    patAbc "abcxx" (by decide)
  exact ⟨h.2.2.2, h.1.mp h.2.2.2⟩

/-- When every listed name is a key of the argument map, the required pass
succeeds. -/
theorem checkRequired_ok_of_present :
    ∀ (required : List String) (params : List (String × Value)),
      (∀ r ∈ required, containsKey params r = true) →
      checkRequired required params = .ok () := by
  intro required
  induction required with
  | nil => intro params _; simp [checkRequired]
  | cons r rest ih =>
    intro params hall
    rw [checkRequired, hall r (List.mem_cons_self r rest)]
    simp only [if_true]
    exact ih params (fun r' hr' => hall r' (List.mem_cons_of_mem r hr'))

/-- The required pass reports the first listed name that is not a key of the
argument map, in required-list order. -/
theorem checkRequired_first_missing :
    ∀ (pre : List String) (r : String) (post : List String)
      (params : List (String × Value)),
      (∀ r' ∈ pre, containsKey params r' = true) →
      containsKey params r = false →
      checkRequired (pre ++ r :: post) params =
        .error (.validationError
          ("Required parameter \x27" ++ r ++ "\x27 is missing")) := by
  intro pre
  induction pre with
  | nil =>
    intro r post params _ hmiss
    rw [List.nil_append, checkRequired, hmiss]
    simp
  | cons p rest ih =>
    intro r post params hall hmiss
    rw [List.cons_append, checkRequired, hall p (List.mem_cons_self p rest)]
    simp only [if_true]
    exact ih r post params (fun r' hr' => hall r' (List.mem_cons_of_mem p hr')) hmiss

/-- The argument-map sweep skips over a prefix whose keys are all known and
whose values all validate. -/
theorem checkProvided_skip_valid_front
    (schemas : List (String × ParameterSchema)) :
    ∀ (pre rest : List (String × Value)),
      (∀ p ∈ pre, ∃ q, dictLookup schemas p.1 = some q ∧
        q.validate p.2 = .ok ()) →
      checkProvided schemas (pre ++ rest) = checkProvided schemas rest := by
  intro pre
  induction pre with
  | nil => intro rest _; rw [List.nil_append]
  | cons p tail ih =>
    intro rest hall
    obtain ⟨q, hq, hok⟩ := hall p (List.mem_cons_self p tail)
    obtain ⟨pn, pv⟩ := p
    simp only at hq hok
    rw [List.cons_append, checkProvided, hq]
    simp only [hok]
    exact ih rest (fun p' hp' => hall p' (List.mem_cons_of_mem (pn, pv) hp'))

/-! C10.  A name listed in `FunctionSchema.required` whose own
`ParameterSchema.required` flag is `false` (the constructor default) may be
bound to `None`: the required pass only checks key presence, and
`ParameterSchema.validate` returns at once on `None` when its flag is
false. -/

/-- C10: for any parameter schema with `required = false` — whatever its kind
and constraints — binding the (function-level) required name to the null
value passes `validate_parameters`; the required pass looks only at key
presence, and `validate` accepts null whenever the per-parameter flag is
false. -/
theorem required_name_with_null_value_accepted (fname fdescr pname : String)
    (ps : ParameterSchema) (hreq : ps.required = false) :
    FunctionSchema.validateParameters
        { name := fname, description := fdescr, parameters := [(pname, ps)],
          required := [pname] } [(pname, Value.null)] = .ok ()
    ∧ ps.validate .null = .ok ()
    ∧ ∀ (required : List String) (params : List (String × Value)),
        (∀ r ∈ required, containsKey params r = true) →
        checkRequired required params = .ok () := by
  have hnull : ps.validate .null = .ok () := by
    simp [ParameterSchema.validate, hreq]
  refine ⟨?_, hnull, checkRequired_ok_of_present⟩
  simp [FunctionSchema.validateParameters, checkRequired, checkProvided,
    containsKey, dictLookup, hnull]

/-- C10 witness: the theorem at the schema
`{parameters: {age: Number(minimum=0)}, required: ["age"]}` and the argument
map `{age: None}`. -/
theorem required_name_with_null_value_accepted_witness :
    FunctionSchema.validateParameters
        { name := "t", description := "d", parameters := [("age", numberMin0)],
          required := ["age"] } [("age", Value.null)] = .ok () :=
  (required_name_with_null_value_accepted "t" "d" "age" numberMin0 rfl).1

/-! C4.  In `call_function` a parameter-validation failure propagates before
the retry loop is ever entered: the callable is not invoked (invocation count
0) and the error is the very `ValidationError` raised by
`validate_parameters`, a different exception class from the terminal
`RuntimeError`. -/

/-- C4: when the registered schema's `validate_parameters` fails with a
`ValidationError`, `call_function` returns that same error with zero
invocations of the callable, and a `ValidationError` is never equal to the
terminal `RuntimeError`. -/
theorem validation_failure_not_retried (c : GemmaFunctionCaller)
    (name : String) (params : List (String × Value)) (N : Nat) (f : Callable)
    (schema : FunctionSchema) (m : String)
    (hf : c.registry.getFunction name = some f)
    (hs : c.registry.getSchema name = some schema)
    (hv : schema.validateParameters params = .error (.validationError m)) :
    c.callFunction name params N = (.error (.validationError m), 0)
    ∧ ∀ m' : String, (PyErr.validationError m : PyErr) ≠ .runtimeError m' := by
  constructor
  · simp [GemmaFunctionCaller.callFunction, hf, hs, hv]
  · intro m' hcontra
    cases hcontra

/-- A callable that always raises. -/
def alwaysFail : Callable := fun _ _ => .error "boom"

/-- A callable that raises on the first two attempts and then returns. -/
def flakyCallable : Callable :=
  fun _ i => if i < 2 then .error "boom" else .ok (.str "success")

/-- The schema of the retry test function (no parameters). -/
def retrySchema : FunctionSchema :=
  { name := "retry_func", description := "A function to test retry logic",
    parameters := [], required := [] }

/-- A registry holding the flaky callable under `"retry_func"`. -/
def flakyRegistry : FunctionRegistry :=
  { functions := [("retry_func", flakyCallable)],
    schemas := [("retry_func", retrySchema)] }

/-- A registry holding the always-failing callable under `"retry_func"`. -/
def failRegistry : FunctionRegistry :=
  { functions := [("retry_func", alwaysFail)],
    schemas := [("retry_func", retrySchema)] }

/-- The schema of the example function `test_func(name, age)`. -/
def testFuncSchema : FunctionSchema :=
  { name := "test_func", description := "A test function",
    parameters :=
      [("name", { type := .string, description := "The name parameter",
                  required := false, minimum := Option.none,
                  maximum := Option.none, pattern := Option.none,
                  enumValues := Option.none, items := Option.none,
                  properties := Option.none }),
       ("age", numberSchema "The age parameter" false (some 0) Option.none)],
    required := ["name"] }

/-- A registry holding `test_func`. -/
def testFuncRegistry : FunctionRegistry :=
  { functions := [("test_func", alwaysFail)],
    schemas := [("test_func", testFuncSchema)] }

/-- C4 witness: calling `test_func` with an empty argument map fails with the
missing-required `ValidationError` and zero invocations. -/
theorem validation_failure_not_retried_witness :
    (GemmaFunctionCaller.make testFuncRegistry).callFunction "test_func" [] 3 =
      (.error (.validationError "Required parameter \x27name\x27 is missing"), 0) :=
  (validation_failure_not_retried (GemmaFunctionCaller.make testFuncRegistry)
    "test_func" [] 3 alwaysFail testFuncSchema
    "Required parameter \x27name\x27 is missing" rfl rfl rfl).1

/-! C3.  The retry loop of `call_function`: `max_retries = N` means at most
`N` invocation attempts in total; the first success returns immediately; if
every attempt raises, the terminal `RuntimeError` wraps only the last
underlying failure. -/

theorem runWithRetry_count_le (func : Nat → Except String Value) :
    ∀ (remaining retries : Nat) (lastError : Option String),
      (runWithRetry func retries remaining lastError).2 ≤ retries + remaining := by
  intro remaining
  induction remaining with
  | zero =>
    intro retries lastError
    simp [runWithRetry]
  | succ n ih =>
    intro retries lastError
    rw [runWithRetry]
    cases func retries with
    | ok v => simp
    | error e =>
      simp only
      have := ih (retries + 1) (some e)
      omega

theorem runWithRetry_success (func : Nat → Except String Value) :
    ∀ (k remaining retries : Nat) (lastError : Option String) (v : Value),
      k < remaining → (∀ j, j < k → ∃ e, func (retries + j) = .error e) →
      func (retries + k) = .ok v →
      runWithRetry func retries remaining lastError = (.ok v, retries + k + 1) := by
  intro k
  induction k with
  | zero =>
    intro remaining retries lastError v hlt _ hok
    cases remaining with
    | zero => omega
    | succ n =>
      rw [runWithRetry]
      rw [show retries + 0 = retries from rfl] at hok
      rw [hok]
  | succ k ih =>
    intro remaining retries lastError v hlt hfail hok
    cases remaining with
    | zero => omega
    | succ n =>
      obtain ⟨e, he⟩ := hfail 0 (Nat.succ_pos k)
      rw [show retries + 0 = retries from rfl] at he
      rw [runWithRetry, he]
      simp only
      have hres := ih n (retries + 1) (some e) v (by omega)
        (fun j hj => by
          obtain ⟨e', he'⟩ := hfail (j + 1) (by omega)
          exact ⟨e', by rw [show retries + 1 + j = retries + (j + 1) by omega]; exact he'⟩)
        (by rw [show retries + 1 + k = retries + (k + 1) by omega]; exact hok)
      rw [hres]
      congr 1
      omega

theorem runWithRetry_allfail (func : Nat → Except String Value) :
    ∀ (remaining retries : Nat) (lastError : Option String),
      0 < remaining →
      (∀ j, j < remaining → ∃ e, func (retries + j) = .error e) →
      ∃ e, func (retries + remaining - 1) = .error e ∧
        runWithRetry func retries remaining lastError =
          (.error (.runtimeError ("Function execution failed: " ++ e)),
           retries + remaining) := by
  intro remaining
  induction remaining with
  | zero =>
    intro retries lastError h
    omega
  | succ n ih =>
    intro retries lastError _ hfail
    obtain ⟨e0, he0⟩ := hfail 0 (Nat.succ_pos n)
    rw [show retries + 0 = retries from rfl] at he0
    cases n with
    | zero =>
      refine ⟨e0, by simpa using he0, ?_⟩
      rw [runWithRetry, he0]
      simp [runWithRetry, strOfLast]
    | succ m =>
      obtain ⟨e, he, hrun⟩ := ih (retries + 1) (some e0) (Nat.succ_pos m)
        (fun j hj => by
          obtain ⟨e', he'⟩ := hfail (j + 1) (by omega)
          exact ⟨e', by rw [show retries + 1 + j = retries + (j + 1) by omega]; exact he'⟩)
      refine ⟨e, ?_, ?_⟩
      · rw [show retries + (m + 1 + 1) - 1 = retries + 1 + (m + 1) - 1 by omega]
        exact he
      · rw [runWithRetry, he0]
        simp only
        rw [hrun]
        congr 1
        omega

/-- C3: with the lookups succeeding and validation passing, `call_function`
invokes the callable at most `max_retries` times; if the first `k` attempts
raise and attempt `k` (zero-based) succeeds within the budget, the result is
returned with exactly `k + 1` invocations; if every attempt raises, the call
fails after exactly `max_retries` invocations with a single `RuntimeError`
wrapping only the last underlying failure. -/
theorem call_function_retry_semantics (c : GemmaFunctionCaller) (name : String)
    (params : List (String × Value)) (N : Nat) (f : Callable)
    (schema : FunctionSchema)
    (hf : c.registry.getFunction name = some f)
    (hs : c.registry.getSchema name = some schema)
    (hv : schema.validateParameters params = .ok ()) :
    ((c.callFunction name params N).2 ≤ N)
    ∧ (∀ k v, k < N → (∀ j, j < k → ∃ e, f params j = .error e) →
        f params k = .ok v → c.callFunction name params N = (.ok v, k + 1))
    ∧ (0 < N → (∀ j, j < N → ∃ e, f params j = .error e) →
        ∃ e, f params (N - 1) = .error e ∧
          c.callFunction name params N =
            (.error (.runtimeError ("Function execution failed: " ++ e)), N)) := by
  have hcall : c.callFunction name params N =
      runWithRetry (f params) 0 N Option.none := by
    simp [GemmaFunctionCaller.callFunction, hf, hs, hv]
  refine ⟨?_, ?_, ?_⟩
  · rw [hcall]
    have := runWithRetry_count_le (f params) N 0 Option.none
    omega
  · intro k v hk hfail hok
    rw [hcall]
    have := runWithRetry_success (f params) k N 0 Option.none v hk
      (fun j hj => by simpa using hfail j hj) (by simpa using hok)
    simpa using this
  · intro hN hfail
    obtain ⟨e, he, hrun⟩ := runWithRetry_allfail (f params) N 0 Option.none hN
      (fun j hj => by simpa using hfail j hj)
    refine ⟨e, by simpa using he, ?_⟩
    rw [hcall]
    simpa using hrun

/-- C3 witness: the spec's own scenario — a callable that raises twice then
returns, with `max_retries = 3`, yields the success value after exactly 3
invocations; a callable that always raises, with `max_retries = 2`, yields
the terminal `RuntimeError` wrapping the last failure after exactly 2
invocations. -/
theorem call_function_retry_semantics_witness :
    (GemmaFunctionCaller.make flakyRegistry).callFunction "retry_func" [] 3 =
      (.ok (.str "success"), 3)
    ∧ (GemmaFunctionCaller.make failRegistry).callFunction "retry_func" [] 2 =
      (.error (.runtimeError "Function execution failed: boom"), 2) := by
  constructor
  · have h := (call_function_retry_semantics (GemmaFunctionCaller.make flakyRegistry)
      "retry_func" [] 3 flakyCallable retrySchema rfl rfl rfl).2.1
    have := h 2 (.str "success") (by omega)
      (fun j hj => ⟨"boom", by simp [flakyCallable, hj]⟩)
      (by simp [flakyCallable])
    simpa using this
  · have h := (call_function_retry_semantics (GemmaFunctionCaller.make failRegistry)
      "retry_func" [] 2 alwaysFail retrySchema rfl rfl rfl).2.2
    obtain ⟨e, he, hrun⟩ := h (by omega) (fun j _ => ⟨"boom", rfl⟩)
    simp only [alwaysFail, Except.error.injEq] at he
    subst he
    exact hrun

/-! C5.  `validate_parameters` runs the required pass first, but the unknown-
key check and the per-value validation are NOT separate passes: the source
makes one sweep over the argument map, checking membership and validating
each value before moving to the next key.  An invalid value bound to an
earlier key is therefore reported before an unknown later key, contradicting
the claimed required → unknown-key → per-value ordering. -/

/-- A function schema with one Number parameter and no required names. -/
def c5Schema : FunctionSchema :=
  { name := "t", description := "d",
    parameters :=
      [("age", numberSchema "The age parameter" false (some 0) Option.none)],
    required := [] }

/-- C5 counterexample: with arguments `{age: -1, unknown: 1}` the source
reports the invalid value of the earlier key `age`, not the unknown later
key, so the unknown-key check is not a pass that precedes value
validation. -/
theorem unknown_key_check_not_separate_pass :
    c5Schema.validateParameters [("age", .int (-1)), ("unknown", .int 1)] =
      .error (.validationError
        "Invalid value for parameter \x27age\x27: Value -1 is less than minimum 0")
    ∧ ¬ (c5Schema.validateParameters [("age", .int (-1)), ("unknown", .int 1)] =
      .error (.validationError "Unknown parameter: unknown")) := by
  have h1 : c5Schema.validateParameters
      [("age", .int (-1)), ("unknown", .int 1)] =
      .error (.validationError
        "Invalid value for parameter \x27age\x27: Value -1 is less than minimum 0") := by
    simp only [FunctionSchema.validateParameters, c5Schema, checkRequired,
      checkProvided, dictLookup, ParameterSchema.validate, numberSchema,
      Value.toNum, pyStr, pyRepr]
    decide
  refine ⟨h1, ?_⟩
  rw [h1]
  intro hcontra
  simp only [Except.error.injEq, PyErr.validationError.injEq] at hcontra
  exact absurd hcontra (by decide)

/-- C5 (amended): the required pass runs first, in required-list order,
reporting the first missing name; then a SINGLE pass over the argument map in
insertion order checks each key for membership in the parameters mapping and
immediately validates its value (wrapping a nested `ValidationError` with the
parameter name) — so unknown-key detection and value validation are
interleaved per key rather than being two separate passes, and an invalid
earlier value is reported before an unknown later key. -/
theorem validate_parameters_check_order :
    (∀ (fs : FunctionSchema) (params : List (String × Value)) (pre : List String)
        (r : String) (post : List String),
      fs.required = pre ++ r :: post →
      (∀ r' ∈ pre, containsKey params r' = true) →
      containsKey params r = false →
      fs.validateParameters params =
        .error (.validationError
          ("Required parameter \x27" ++ r ++ "\x27 is missing")))
    ∧ (∀ (fs : FunctionSchema) (pre : List (String × Value)) (k : String)
        (v : Value) (post : List (String × Value)),
      (∀ r ∈ fs.required, containsKey (pre ++ (k, v) :: post) r = true) →
      (∀ p ∈ pre, ∃ q, dictLookup fs.parameters p.1 = some q ∧
        q.validate p.2 = .ok ()) →
      dictLookup fs.parameters k = Option.none →
      fs.validateParameters (pre ++ (k, v) :: post) =
        .error (.validationError ("Unknown parameter: " ++ k)))
    ∧ (∀ (fs : FunctionSchema) (pre : List (String × Value)) (k : String)
        (v : Value) (post : List (String × Value)) (q : ParameterSchema)
        (m : String),
      (∀ r ∈ fs.required, containsKey (pre ++ (k, v) :: post) r = true) →
      (∀ p ∈ pre, ∃ q2, dictLookup fs.parameters p.1 = some q2 ∧
        q2.validate p.2 = .ok ()) →
      dictLookup fs.parameters k = some q →
      q.validate v = .error (.validationError m) →
      fs.validateParameters (pre ++ (k, v) :: post) =
        .error (.validationError
          ("Invalid value for parameter \x27" ++ k ++ "\x27: " ++ m)))
    ∧ (∀ (fs : FunctionSchema) (params : List (String × Value)),
      (∀ r ∈ fs.required, containsKey params r = true) →
      (∀ p ∈ params, ∃ q, dictLookup fs.parameters p.1 = some q ∧
        q.validate p.2 = .ok ()) →
      fs.validateParameters params = .ok ()) := by
  refine ⟨?_, ?_, ?_, ?_⟩
  · intro fs params pre r post hreq hall hmiss
    rw [FunctionSchema.validateParameters, hreq,
      checkRequired_first_missing pre r post params hall hmiss]
  · intro fs pre k v post hreq hpre hunknown
    rw [FunctionSchema.validateParameters, checkRequired_ok_of_present _ _ hreq]
    simp only
    rw [checkProvided_skip_valid_front fs.parameters pre _ hpre,
      checkProvided, hunknown]
  · intro fs pre k v post q m hreq hpre hq hbad
    rw [FunctionSchema.validateParameters, checkRequired_ok_of_present _ _ hreq]
    simp only
    rw [checkProvided_skip_valid_front fs.parameters pre _ hpre,
      checkProvided, hq]
    simp only [hbad]
  · intro fs params hreq hall
    rw [FunctionSchema.validateParameters, checkRequired_ok_of_present _ _ hreq]
    simp only
    have := checkProvided_skip_valid_front fs.parameters params [] hall
    rw [List.append_nil] at this
    rw [this, checkProvided]

/-- C5 witness: the spec's worked example — required `["name"]`, parameters
`{name: String, age: Number(minimum=0)}` — exercised on all five argument
maps of the spec, each conclusion obtained from the order theorem. -/
theorem validate_parameters_check_order_witness :
    testFuncSchema.validateParameters [] =
      .error (.validationError "Required parameter \x27name\x27 is missing")
    ∧ testFuncSchema.validateParameters
        [("name", .str "Alice"), ("unknown", .int 1)] =
      .error (.validationError "Unknown parameter: unknown")
    ∧ testFuncSchema.validateParameters
        [("name", .str "Alice"), ("age", .int (-1))] =
      .error (.validationError
        "Invalid value for parameter \x27age\x27: Value -1 is less than minimum 0")
    ∧ testFuncSchema.validateParameters [("name", .str "Alice")] = .ok ()
    ∧ testFuncSchema.validateParameters
        [("name", .str "Alice"), ("age", .int 25)] = .ok () := by
  have hnm : ∃ q, dictLookup testFuncSchema.parameters "name" = some q ∧
      q.validate (.str "Alice") = .ok () := by
    refine ⟨_, rfl, ?_⟩
    simp [ParameterSchema.validate, testFuncSchema]
  refine ⟨?_, ?_, ?_, ?_, ?_⟩
  · exact validate_parameters_check_order.1 testFuncSchema [] [] "name" []
      rfl (by simp) rfl
  · refine validate_parameters_check_order.2.1 testFuncSchema
      [("name", .str "Alice")] "unknown" (.int 1) [] (by simp [testFuncSchema]; rfl)
      ?_ rfl
    intro p hp
    rw [List.mem_singleton] at hp
    subst hp
    exact hnm
  · refine validate_parameters_check_order.2.2.1 testFuncSchema
      [("name", .str "Alice")] "age" (.int (-1)) []
      (numberSchema "The age parameter" false (some 0) Option.none)
      "Value -1 is less than minimum 0" (by simp [testFuncSchema]; rfl) ?_ rfl ?_
    · intro p hp
      rw [List.mem_singleton] at hp
      subst hp
      exact hnm
    · simp only [ParameterSchema.validate, numberSchema, Value.toNum, pyStr,
        pyRepr]
      decide
  · refine validate_parameters_check_order.2.2.2 testFuncSchema
      [("name", .str "Alice")] (by simp [testFuncSchema]; rfl) ?_
    intro p hp
    rw [List.mem_singleton] at hp
    subst hp
    exact hnm
  · refine validate_parameters_check_order.2.2.2 testFuncSchema
      [("name", .str "Alice"), ("age", .int 25)] (by simp [testFuncSchema]; rfl) ?_
    intro p hp
    rw [List.mem_cons, List.mem_singleton] at hp
    cases hp with
    | inl h => subst h; exact hnm
    | inr h =>
      subst h
      refine ⟨_, rfl, ?_⟩
      simp [ParameterSchema.validate, testFuncSchema, numberSchema, Value.toNum]

/-! C6/C7.  The registry keeps `_functions` and `_schemas` keyed identically:
every mutation either touches both maps under the same name or raises before
touching either. -/

theorem containsKey_iff_mem {A : Type} :
    ∀ (xs : List (String × A)) (k : String),
      containsKey xs k = true ↔ k ∈ xs.map Prod.fst := by
  intro xs k
  induction xs with
  | nil => simp [containsKey, dictLookup]
  | cons p rest ih =>
    obtain ⟨pk, pv⟩ := p
    by_cases hk : pk = k
    · subst hk
      simp [containsKey, dictLookup]
    · simp only [containsKey, dictLookup, if_neg hk, List.map_cons,
        List.mem_cons]
      rw [← containsKey]
      rw [ih]
      constructor
      · exact Or.inr
      · rintro (h | h)
        · exact absurd h.symm hk
        · exact h

theorem keys_dictSet_present {A : Type} (xs : List (String × A)) (k : String)
    (v : A) (h : containsKey xs k = true) :
    (dictSet xs k v).map Prod.fst = xs.map Prod.fst := by
  rw [dictSet, if_pos h]
  clear h
  induction xs with
  | nil => rfl
  | cons p rest ih =>
    simp only [List.map_cons, ih]
    by_cases hk : p.1 = k <;> simp [hk]

theorem keys_dictSet_absent {A : Type} (xs : List (String × A)) (k : String)
    (v : A) (h : containsKey xs k = false) :
    (dictSet xs k v).map Prod.fst = xs.map Prod.fst ++ [k] := by
  rw [dictSet, if_neg (by rw [h]; exact Bool.false_ne_true)]
  simp

theorem keys_dictDelete {A : Type} :
    ∀ (xs : List (String × A)) (k : String),
      (dictDelete xs k).map Prod.fst =
        (xs.map Prod.fst).filter (fun x => x ≠ k) := by
  intro xs k
  induction xs with
  | nil => rfl
  | cons p rest ih =>
    by_cases hk : p.1 = k
    · simp [dictDelete, List.filter, hk] at ih ⊢
      exact ih
    · simp [dictDelete, List.filter, hk] at ih ⊢
      exact ih

/-- The paired-maps invariant: both maps hold exactly the same names, each at
most once. -/
def RegInv (reg : FunctionRegistry) : Prop :=
  reg.functions.map Prod.fst = reg.schemas.map Prod.fst ∧
  (reg.functions.map Prod.fst).Nodup

/-- A failing `register` returns with the registry unchanged. -/
theorem register_state_on_error (reg : FunctionRegistry) (name : String)
    (func : Callable) (schema : RawFunctionDef) :
    ∀ e, (reg.register name func schema).1 = .error e →
      (reg.register name func schema).2 = reg := by
  intro e h
  by_cases hc : containsKey reg.functions name = true
  · simp [FunctionRegistry.register, hc]
  · cases hv : validateFunctionDefinition schema with
    | error e2 => simp [FunctionRegistry.register, hc, hv]
    | ok u =>
      cases hn : schema.name? with
      | none => simp [FunctionRegistry.register, hc, hv, hn]
      | some n =>
        cases hd : schema.description? with
        | none => simp [FunctionRegistry.register, hc, hv, hn, hd]
        | some d =>
          cases hp : schema.parameters? with
          | none => simp [FunctionRegistry.register, hc, hv, hn, hd, hp]
          | some ps =>
            cases hm : FunctionSchema.make n d ps (some (schema.required?.getD [])) with
            | error e3 => simp [FunctionRegistry.register, hc, hv, hn, hd, hp, hm]
            | ok fs =>
              simp [FunctionRegistry.register, hc, hv, hn, hd, hp, hm] at h

/-- A failing `update_function` returns with the registry unchanged. -/
theorem update_state_on_error (reg : FunctionRegistry) (name : String)
    (func : Callable) (schema : RawFunctionDef) :
    ∀ e, (reg.updateFunction name func schema).1 = .error e →
      (reg.updateFunction name func schema).2 = reg := by
  intro e h
  by_cases hc : containsKey reg.functions name = true
  · cases hv : validateFunctionDefinition schema with
    | error e2 => simp [FunctionRegistry.updateFunction, hc, hv]
    | ok u =>
      cases hn : schema.name? with
      | none => simp [FunctionRegistry.updateFunction, hc, hv, hn]
      | some n =>
        cases hd : schema.description? with
        | none => simp [FunctionRegistry.updateFunction, hc, hv, hn, hd]
        | some d =>
          cases hp : schema.parameters? with
          | none => simp [FunctionRegistry.updateFunction, hc, hv, hn, hd, hp]
          | some ps =>
            cases hm : FunctionSchema.make n d ps (some (schema.required?.getD [])) with
            | error e3 =>
              simp [FunctionRegistry.updateFunction, hc, hv, hn, hd, hp, hm]
            | ok fs =>
              simp [FunctionRegistry.updateFunction, hc, hv, hn, hd, hp, hm] at h
  · simp [FunctionRegistry.updateFunction, hc]

/-- A failing `unregister` returns with the registry unchanged. -/
theorem unregister_state_on_error (reg : FunctionRegistry) (name : String) :
    ∀ e, (reg.unregister name).1 = .error e → (reg.unregister name).2 = reg := by
  intro e h
  by_cases hc : containsKey reg.functions name = true
  · simp [FunctionRegistry.unregister, hc] at h
  · simp [FunctionRegistry.unregister, hc]

/-- A successful `register` installs the callable and some schema together
under the name, which was previously absent. -/
theorem register_success_state (reg : FunctionRegistry) (name : String)
    (func : Callable) (schema : RawFunctionDef)
    (h : (reg.register name func schema).1 = .ok ()) :
    containsKey reg.functions name = false ∧
    ∃ fs, (reg.register name func schema).2 =
      { functions := dictSet reg.functions name func,
        schemas := dictSet reg.schemas name fs } := by
  by_cases hc : containsKey reg.functions name = true
  · simp [FunctionRegistry.register, hc] at h
  · refine ⟨by rw [Bool.not_eq_true] at hc; exact hc, ?_⟩
    cases hv : validateFunctionDefinition schema with
    | error e2 => simp [FunctionRegistry.register, hc, hv] at h
    | ok u =>
      cases hn : schema.name? with
      | none => simp [FunctionRegistry.register, hc, hv, hn] at h
      | some n =>
        cases hd : schema.description? with
        | none => simp [FunctionRegistry.register, hc, hv, hn, hd] at h
        | some d =>
          cases hp : schema.parameters? with
          | none => simp [FunctionRegistry.register, hc, hv, hn, hd, hp] at h
          | some ps =>
            cases hm : FunctionSchema.make n d ps (some (schema.required?.getD [])) with
            | error e3 =>
              simp [FunctionRegistry.register, hc, hv, hn, hd, hp, hm] at h
            | ok fs =>
              exact ⟨fs, by simp [FunctionRegistry.register, hc, hv, hn, hd, hp, hm]⟩

/-- A successful `update_function` replaces both entries in place under the
name, which was previously present. -/
theorem update_success_state (reg : FunctionRegistry) (name : String)
    (func : Callable) (schema : RawFunctionDef)
    (h : (reg.updateFunction name func schema).1 = .ok ()) :
    containsKey reg.functions name = true ∧
    ∃ fs, (reg.updateFunction name func schema).2 =
      { functions := dictSet reg.functions name func,
        schemas := dictSet reg.schemas name fs } := by
  by_cases hc : containsKey reg.functions name = true
  · refine ⟨hc, ?_⟩
    cases hv : validateFunctionDefinition schema with
    | error e2 => simp [FunctionRegistry.updateFunction, hc, hv] at h
    | ok u =>
      cases hn : schema.name? with
      | none => simp [FunctionRegistry.updateFunction, hc, hv, hn] at h
      | some n =>
        cases hd : schema.description? with
        | none => simp [FunctionRegistry.updateFunction, hc, hv, hn, hd] at h
        | some d =>
          cases hp : schema.parameters? with
          | none => simp [FunctionRegistry.updateFunction, hc, hv, hn, hd, hp] at h
          | some ps =>
            cases hm : FunctionSchema.make n d ps (some (schema.required?.getD [])) with
            | error e3 =>
              simp [FunctionRegistry.updateFunction, hc, hv, hn, hd, hp, hm] at h
            | ok fs =>
              exact ⟨fs,
                by simp [FunctionRegistry.updateFunction, hc, hv, hn, hd, hp, hm]⟩
  · simp [FunctionRegistry.updateFunction, hc] at h

/-- A successful `unregister` removes both entries of the name, which was
previously present. -/
theorem unregister_success_state (reg : FunctionRegistry) (name : String)
    (h : (reg.unregister name).1 = .ok ()) :
    containsKey reg.functions name = true ∧
    (reg.unregister name).2 =
      { functions := dictDelete reg.functions name,
        schemas := dictDelete reg.schemas name } := by
  by_cases hc : containsKey reg.functions name = true
  · exact ⟨hc, by simp [FunctionRegistry.unregister, hc]⟩
  · simp [FunctionRegistry.unregister, hc] at h

/-- C6: the key set of the callable map always equals the key set of the
schema map, with at most one entry per name: the invariant holds for the
fresh registry and is preserved by `register`, `unregister` and
`update_function`, on success and on failure alike (`get_function`,
`get_schema` and `list_functions` are pure lookups and return no state). -/
theorem registry_key_sets_agree :
    RegInv FunctionRegistry.empty
    ∧ ∀ (reg : FunctionRegistry) (name : String) (func : Callable)
        (schema : RawFunctionDef), RegInv reg →
        RegInv (reg.register name func schema).2
        ∧ RegInv (reg.unregister name).2
        ∧ RegInv (reg.updateFunction name func schema).2 := by
  constructor
  · exact ⟨rfl, List.nodup_nil⟩
  · intro reg name func schema hinv
    obtain ⟨hkeys, hnodup⟩ := hinv
    refine ⟨?_, ?_, ?_⟩
    · cases hres : (reg.register name func schema).1 with
      | error e =>
        rw [register_state_on_error reg name func schema e hres]
        exact ⟨hkeys, hnodup⟩
      | ok u =>
        cases u
        obtain ⟨hcf, fs, hstate⟩ :=
          register_success_state reg name func schema hres
        rw [hstate]
        have hmemF : name ∉ reg.functions.map Prod.fst := by
          intro hmem
          rw [(containsKey_iff_mem reg.functions name).mpr hmem] at hcf
          cases hcf
        have hcs : containsKey reg.schemas name = false := by
          cases hx : containsKey reg.schemas name with
          | false => rfl
          | true =>
            exact absurd ((containsKey_iff_mem reg.schemas name).mp hx)
              (by rw [← hkeys]; exact hmemF)
        constructor
        · simp only [keys_dictSet_absent reg.functions name func hcf,
            keys_dictSet_absent reg.schemas name fs hcs, hkeys]
        · rw [keys_dictSet_absent reg.functions name func hcf]
          refine List.nodup_append.mpr ⟨hnodup, List.nodup_singleton name, ?_⟩
          intro a haF haS
          rw [List.mem_singleton] at haS
          subst haS
          exact hmemF haF
    · cases hres : (reg.unregister name).1 with
      | error e =>
        rw [unregister_state_on_error reg name e hres]
        exact ⟨hkeys, hnodup⟩
      | ok u =>
        cases u
        obtain ⟨hcf, hstate⟩ := unregister_success_state reg name hres
        rw [hstate]
        constructor
        · simp only [keys_dictDelete, hkeys]
        · rw [keys_dictDelete]
          exact hnodup.filter _
    · cases hres : (reg.updateFunction name func schema).1 with
      | error e =>
        rw [update_state_on_error reg name func schema e hres]
        exact ⟨hkeys, hnodup⟩
      | ok u =>
        cases u
        obtain ⟨hcf, fs, hstate⟩ :=
          update_success_state reg name func schema hres
        rw [hstate]
        have hcs : containsKey reg.schemas name = true := by
          rw [containsKey_iff_mem, ← hkeys]
          exact (containsKey_iff_mem reg.functions name).mp hcf
        constructor
        · simp only [keys_dictSet_present reg.functions name func hcf,
            keys_dictSet_present reg.schemas name fs hcs, hkeys]
        · rw [keys_dictSet_present reg.functions name func hcf]
          exact hnodup

/-- The raw definition of the example function, as handed to `register`. -/
def rawTestDef : RawFunctionDef :=
  { name? := some "test_func", description? := some "A test function",
    parameters? := some [("name", RawParam.base "string" "The name parameter")],
    required? := some ["name"] }

/-- C6 witness: the invariant at the empty registry, carried through a
concrete successful registration. -/
theorem registry_key_sets_agree_witness :
    RegInv (FunctionRegistry.empty.register "test_func" alwaysFail rawTestDef).2 :=
  (registry_key_sets_agree.2 FunctionRegistry.empty "test_func" alwaysFail
    rawTestDef registry_key_sets_agree.1).1

/-- C7: failures leave the registry exactly as it was — `register` on a
present name fails with the duplicate-name error and no mutation (whatever
callable is offered), `update_function` on an absent name fails with the
not-found error and creates nothing, and every error outcome of `register`
or `update_function` (validation failures included) returns the prior
state. -/
theorem registry_failures_preserve_state (reg : FunctionRegistry)
    (name : String) (func : Callable) (schema : RawFunctionDef) :
    (containsKey reg.functions name = true →
      reg.register name func schema =
        (.error (.validationError
          ("Function \x27" ++ name ++ "\x27 is already registered")), reg))
    ∧ (containsKey reg.functions name = false →
      reg.updateFunction name func schema =
        (.error (.valueError
          ("Function " ++ name ++ " not found in registry")), reg))
    ∧ (∀ e, (reg.register name func schema).1 = .error e →
        (reg.register name func schema).2 = reg)
    ∧ (∀ e, (reg.updateFunction name func schema).1 = .error e →
        (reg.updateFunction name func schema).2 = reg) := by
  refine ⟨?_, ?_, register_state_on_error reg name func schema,
    update_state_on_error reg name func schema⟩
  · intro hc
    simp [FunctionRegistry.register, hc]
  · intro hc
    simp [FunctionRegistry.updateFunction, hc]

/-- C7 witness: registering `"test_func"` twice fails on the second call with
the first entry untouched, and updating an absent name fails without creating
it. -/
theorem registry_failures_preserve_state_witness :
    ((FunctionRegistry.empty.register "test_func" alwaysFail rawTestDef).2.register
        "test_func" flakyCallable rawTestDef) =
      (.error (.validationError
        "Function \x27test_func\x27 is already registered"),
       (FunctionRegistry.empty.register "test_func" alwaysFail rawTestDef).2)
    ∧ FunctionRegistry.empty.updateFunction "test_func" alwaysFail rawTestDef =
      (.error (.valueError "Function test_func not found in registry"),
       FunctionRegistry.empty) := by
  constructor
  · exact (registry_failures_preserve_state
      (FunctionRegistry.empty.register "test_func" alwaysFail rawTestDef).2
      "test_func" flakyCallable rawTestDef).1 rfl
  · exact (registry_failures_preserve_state FunctionRegistry.empty "test_func"
      alwaysFail rawTestDef).2.1 rfl

/-! C8.  The dispatcher's capability listing: sentinel text when the registry
is empty, header plus one line per function otherwise, and kept equal to
`_build_system_prompt` of the current registry across the dispatcher's own
mutation entry points. -/

/-- C8: the capability listing equals the fixed sentinel exactly when no
functions are registered and otherwise is the header line followed by one
`- name: description` line per function in `list_functions()` order; it is
rebuilt synchronously by the dispatcher's register/unregister/update entry
points, so after any such call (failed calls leave both registry and listing
untouched) `get_system_prompt` equals `_build_system_prompt` of the current
registry. -/
theorem capability_listing_sync :
    (∀ reg : FunctionRegistry, reg.listFunctions = [] →
      buildSystemPrompt reg = "No functions are currently available.")
    ∧ (∀ reg : FunctionRegistry, reg.listFunctions ≠ [] →
      buildSystemPrompt reg = "Available functions:\n\n" ++
        String.join (reg.listFunctions.map
          (fun f => "- " ++ f.1 ++ ": " ++ f.2 ++ "\n")))
    ∧ (∀ reg : FunctionRegistry,
      (GemmaFunctionCaller.make reg).getSystemPrompt = buildSystemPrompt reg)
    ∧ (∀ (c : GemmaFunctionCaller) (name : String) (func : Callable)
        (schema : RawFunctionDef),
      c.getSystemPrompt = buildSystemPrompt c.registry →
        (c.registerFunction name func schema).2.getSystemPrompt =
          buildSystemPrompt (c.registerFunction name func schema).2.registry
        ∧ (c.unregisterFunction name).2.getSystemPrompt =
          buildSystemPrompt (c.unregisterFunction name).2.registry
        ∧ (c.updateFunction name func schema).2.getSystemPrompt =
          buildSystemPrompt (c.updateFunction name func schema).2.registry) := by
  refine ⟨?_, ?_, fun reg => rfl, ?_⟩
  · intro reg h
    simp [buildSystemPrompt, h]
  · intro reg h
    have hne : reg.listFunctions.isEmpty = false := by
      cases hx : reg.listFunctions with
      | nil => exact absurd hx h
      | cons a l => rfl
    simp [buildSystemPrompt, hne]
  · intro c name func schema hinv
    refine ⟨?_, ?_, ?_⟩
    · cases hres : c.registry.register name func schema with
      | mk r reg2 =>
        cases r with
        | ok u =>
          simp [GemmaFunctionCaller.registerFunction, hres,
            GemmaFunctionCaller.getSystemPrompt]
        | error e =>
          have hstate : reg2 = c.registry := by
            have h2 := register_state_on_error c.registry name func schema e
              (by rw [hres])
            rw [hres] at h2
            exact h2
          simp [GemmaFunctionCaller.registerFunction, hres,
            GemmaFunctionCaller.getSystemPrompt, hstate]
          exact hinv
    · cases hres : c.registry.unregister name with
      | mk r reg2 =>
        cases r with
        | ok u =>
          simp [GemmaFunctionCaller.unregisterFunction, hres,
            GemmaFunctionCaller.getSystemPrompt]
        | error e =>
          have hstate : reg2 = c.registry := by
            have h2 := unregister_state_on_error c.registry name e (by rw [hres])
            rw [hres] at h2
            exact h2
          simp [GemmaFunctionCaller.unregisterFunction, hres,
            GemmaFunctionCaller.getSystemPrompt, hstate]
          exact hinv
    · cases hres : c.registry.updateFunction name func schema with
      | mk r reg2 =>
        cases r with
        | ok u =>
          simp [GemmaFunctionCaller.updateFunction, hres,
            GemmaFunctionCaller.getSystemPrompt]
        | error e =>
          have hstate : reg2 = c.registry := by
            have h2 := update_state_on_error c.registry name func schema e
              (by rw [hres])
            rw [hres] at h2
            exact h2
          simp [GemmaFunctionCaller.updateFunction, hres,
            GemmaFunctionCaller.getSystemPrompt, hstate]
          exact hinv

/-- C8 witness: the empty dispatcher shows the sentinel; after registering
`test_func` (description `"A test function"`) through the dispatcher the
listing holds its line; after unregistering it the listing reverts to the
sentinel. -/
theorem capability_listing_sync_witness :
    (GemmaFunctionCaller.make FunctionRegistry.empty).getSystemPrompt =
      "No functions are currently available."
    ∧ ((GemmaFunctionCaller.make FunctionRegistry.empty).registerFunction
        "test_func" alwaysFail rawTestDef).2.getSystemPrompt =
      "Available functions:\n\n- test_func: A test function\n"
    ∧ (((GemmaFunctionCaller.make FunctionRegistry.empty).registerFunction
        "test_func" alwaysFail rawTestDef).2.unregisterFunction
          "test_func").2.getSystemPrompt =
      "No functions are currently available." := by
  have h0 := capability_listing_sync.2.2.1 FunctionRegistry.empty
  have h1 := (capability_listing_sync.2.2.2
    (GemmaFunctionCaller.make FunctionRegistry.empty) "test_func" alwaysFail
    rawTestDef h0).1
  have h2 := (capability_listing_sync.2.2.2
    ((GemmaFunctionCaller.make FunctionRegistry.empty).registerFunction
      "test_func" alwaysFail rawTestDef).2 "test_func" alwaysFail
    rawTestDef h1).2.1
  refine ⟨?_, ?_, ?_⟩
  · rw [h0]
    decide
  · rw [h1]
    decide
  · rw [h2]
    decide

/-! C9.  Failure messages.  Type mismatches do name the expected kind and the
actual runtime type, and constraint failures name the offending value and
bound — but a failing array element or object property propagates the nested
error UNCHANGED: nothing in the message identifies which element or property
failed (two arrays failing at different positions produce identical errors).
The parameter name is added only by `FunctionSchema.validate_parameters`. -/

/-- The raw item definition `{type: "string", description: "Array item"}`. -/
def rawStringItem : RawParam := RawParam.base "string" "Array item"

/-- An Array-kind schema with an `items` definition. -/
def arraySchemaOf (descr : String) (req : Bool) (itemsRaw : RawParam) :
    ParameterSchema :=
  { type := .array, description := descr, required := req,
    minimum := Option.none, maximum := Option.none, pattern := Option.none,
    enumValues := Option.none, items := some itemsRaw,
    properties := Option.none }

/-- An Object-kind schema with a `properties` mapping. -/
def objectSchemaOf (descr : String) (req : Bool)
    (props : List (String × RawParam)) : ParameterSchema :=
  { type := .object, description := descr, required := req,
    minimum := Option.none, maximum := Option.none, pattern := Option.none,
    enumValues := Option.none, items := Option.none,
    properties := some props }

/-- A String-kind schema with no pattern. -/
def stringPlainSchema (descr : String) (req : Bool) : ParameterSchema :=
  { type := .string, description := descr, required := req,
    minimum := Option.none, maximum := Option.none, pattern := Option.none,
    enumValues := Option.none, items := Option.none,
    properties := Option.none }

/-- The array schema of the spec's example: `items = {kind: String}`. -/
def arrayStringSchema : ParameterSchema :=
  arraySchemaOf "An array parameter" false rawStringItem

/-- C9 counterexample: an array failing at element 0 and an array failing at
element 1 produce the identical error, so the message cannot identify which
element failed. -/
theorem nested_error_identifies_no_element :
    arrayStringSchema.validate (.list [.int 1]) =
      .error (.validationError "Expected string, got <class \x27int\x27>")
    ∧ arrayStringSchema.validate (.list [.str "a", .int 1]) =
      .error (.validationError "Expected string, got <class \x27int\x27>") := by
  constructor
  · simp [ParameterSchema.validate, arrayStringSchema, arraySchemaOf,
      rawStringItem, RawParam.base, ParameterSchema.ofRaw, RawParam.type?,
      RawParam.description?, RawParam.required, RawParam.minimum,
      RawParam.maximum, RawParam.pattern, RawParam.enumValues, RawParam.items,
      RawParam.properties, ParameterType.ofString, validateList, pyType]
  · simp [ParameterSchema.validate, arrayStringSchema, arraySchemaOf,
      rawStringItem, RawParam.base, ParameterSchema.ofRaw, RawParam.type?,
      RawParam.description?, RawParam.required, RawParam.minimum,
      RawParam.maximum, RawParam.pattern, RawParam.enumValues, RawParam.items,
      RawParam.properties, ParameterType.ofString, validateList, pyType]

/-- A failing element's own error is the whole array's error. -/
theorem validateList_prefix_error (iv : ParameterSchema) :
    ∀ (pre : List Value) (x : Value) (post : List Value) (e : PyErr),
      (∀ y ∈ pre, iv.validate y = .ok ()) → iv.validate x = .error e →
      validateList iv (pre ++ x :: post) = .error e := by
  intro pre
  induction pre with
  | nil =>
    intro x post e _ hx
    rw [List.nil_append, validateList, hx]
  | cons y tail ih =>
    intro x post e hall hx
    rw [List.cons_append, validateList, hall y (List.mem_cons_self y tail)]
    exact ih x post e (fun y' hy' => hall y' (List.mem_cons_of_mem y hy')) hx

/-- C9 (amended): type-mismatch messages name the expected kind and the
actual runtime type, and bound-violation messages name the offending value
and the constraint; but the error of a failing array element, and the error
of a failing listed object property, propagate UNCHANGED through
`ParameterSchema.validate` — the element or property is not identified there;
naming happens only one level up, where `validate_parameters` wraps the error
with the parameter name. -/
theorem nested_errors_propagate_unwrapped :
    (∀ (descr : String) (req : Bool) (itemsRaw : RawParam)
        (iv : ParameterSchema) (pre post : List Value) (x : Value) (e : PyErr),
      ParameterSchema.ofRaw itemsRaw = .ok iv →
      (∀ y ∈ pre, iv.validate y = .ok ()) → iv.validate x = .error e →
      (arraySchemaOf descr req itemsRaw).validate (.list (pre ++ x :: post)) =
        .error e)
    ∧ (∀ (descr : String) (req : Bool) (pn : String) (praw : RawParam)
        (pv : ParameterSchema) (entries : List (String × Value)) (w : Value)
        (e : PyErr),
      ParameterSchema.ofRaw praw = .ok pv →
      dictLookup entries pn = some w → pv.validate w = .error e →
      (objectSchemaOf descr req [(pn, praw)]).validate (.dict entries) =
        .error e)
    ∧ (∀ (descr : String) (req : Bool) (n : Int),
      (stringPlainSchema descr req).validate (.int n) =
        .error (.validationError "Expected string, got <class \x27int\x27>"))
    ∧ (∀ (descr : String) (req : Bool) (mn n : Int), n < mn →
      (numberSchema descr req (some mn) Option.none).validate (.int n) =
        .error (.validationError
          ("Value " ++ toString n ++ " is less than minimum " ++ toString mn))) := by
  refine ⟨?_, ?_, ?_, ?_⟩
  · intro descr req itemsRaw iv pre post x e hraw hpre hx
    simp only [ParameterSchema.validate, arraySchemaOf, hraw]
    exact validateList_prefix_error iv pre x post e hpre hx
  · intro descr req pn praw pv entries w e hraw hlook hbad
    simp only [ParameterSchema.validate, objectSchemaOf]
    rw [validateProps, hlook]
    simp only [hraw, hbad]
  · intro descr req n
    simp [ParameterSchema.validate, stringPlainSchema, pyType]
  · intro descr req mn n hlt
    simp [ParameterSchema.validate, numberSchema, Value.toNum, pyStr, pyRepr, hlt]

/-- C9 witness: the propagation statement applied to the array
`["a", 1]` against `items = {kind: String}` — the failing element's error
comes through verbatim, with no element index added. -/
theorem nested_errors_propagate_unwrapped_witness :
    arrayStringSchema.validate (.list [.str "a", .int 1]) =
      .error (.validationError "Expected string, got <class \x27int\x27>") := by
  have h := nested_errors_propagate_unwrapped.1 "An array parameter" false
    rawStringItem
    { type := .string, description := "Array item", required := false,
      minimum := Option.none, maximum := Option.none, pattern := Option.none,
      enumValues := Option.none, items := Option.none,
      properties := Option.none }
    [.str "a"] [] (.int 1)
    (.validationError "Expected string, got <class \x27int\x27>")
    (by simp [ParameterSchema.ofRaw, rawStringItem, RawParam.base,
      RawParam.type?, RawParam.description?, RawParam.required,
      RawParam.minimum, RawParam.maximum, RawParam.pattern,
      RawParam.enumValues, RawParam.items, RawParam.properties,
      ParameterType.ofString])
    (by
      intro y hy
      rw [List.mem_singleton] at hy
      subst hy
      simp [ParameterSchema.validate])
    (by simp [ParameterSchema.validate, pyType])
  exact h

end GemmaFncall
